import Mathlib

/-!
Formal model of `scripts/hdbscan-python.py`: a command-line adapter that
reads a `{ids, embeddings}` JSON document on stdin, optionally
L2-normalizes the embedding rows, calls the external HDBSCAN library's
`fit_predict`, and prints a JSON result record to stdout.

The script is glue around two external collaborators: the numeric library
(row-norm computation) and the clustering library (`fit_predict`).  Both
enter the model as function-valued fields of the environment.  Embedding
entries are modelled as rationals.  A process run is modelled as a trace:
the ordered list of stdout/stderr prints plus an exit status, where
`ExitStatus.faulted` stands for termination by an uncaught Python
exception (traceback on stderr, non-zero exit code not controlled by the
script).
-/

namespace HdbscanPy

/-- The four CLI options (argparse, source lines 17-24).  `min_samples` is
`Option Int` because its argparse default is `None`. -/
structure Args where
  min_cluster_size : Int
  min_samples : Option Int
  metric : String
  core_dist_n_jobs : Int
deriving DecidableEq

/-- The argparse defaults: `--min-cluster-size 4`, `--min-samples` absent,
`--metric euclidean`, `--core-dist-n-jobs -1`. -/
def defaultArgs : Args where
  min_cluster_size := 4
  min_samples := none
  metric := "euclidean"
  core_dist_n_jobs := -1

/-- Python's `args.min_samples or args.min_cluster_size` (line 26): `or`
returns the right operand when the left is falsy, i.e. `None` or `0`. -/
def pyOrInt (a : Option Int) (b : Int) : Int :=
  match a with
  | none => b
  | some v => if v = 0 then b else v

/-- The keyword arguments handed to `hdbscan.HDBSCAN(...)` (lines 55-60). -/
structure HParams where
  min_cluster_size : Int
  min_samples : Int
  metric : String
  core_dist_n_jobs : Int
deriving DecidableEq

/-- The parameter record the script builds for the clusterer
(lines 26 and 55-60). -/
def hdbscanParams (args : Args) : HParams where
  min_cluster_size := args.min_cluster_size
  min_samples := pyOrInt args.min_samples args.min_cluster_size
  metric := args.metric
  core_dist_n_jobs := args.core_dist_n_jobs

/-- `np.clip(x, lo, hi)`: clamp below at `lo` and, when `hi` is not `None`,
above at `hi`.  The script calls it as `np.clip(norms, 1e-8, None)`
(line 46). -/
def np_clip (x lo : ℚ) (hi : Option ℚ) : ℚ :=
  match hi with
  | none => max x lo
  | some h => min (max x lo) h

/-- The norm floor `1e-8` of line 46. -/
def normFloor : ℚ := 1 / 100000000

/-- Lines 45-46: `norms = np.linalg.norm(embeddings, axis=1, keepdims=True)`
then `embeddings = embeddings / np.clip(norms, 1e-8, None)`.  The norm
computation lives in the external numeric library, so it enters as the
function `normF`; `keepdims=True` broadcasting divides every entry of row
`i` by the clipped norm of row `i`. -/
def normalizeRows (normF : List ℚ → ℚ) (rows : List (List ℚ)) : List (List ℚ) :=
  rows.map fun row => row.map fun x => x / np_clip (normF row) normFloor none

/-- Lines 44-46: the matrix handed to `fit_predict` -- rows are normalized
exactly when the metric option is the string `"euclidean"`. -/
def matrixForClustering (metric : String) (normF : List ℚ → ℚ)
    (rows : List (List ℚ)) : List (List ℚ) :=
  if metric = "euclidean" then normalizeRows normF rows else rows

/-- `labels.max()` on a numpy integer array: the greatest element; raises
`ValueError` (here `none`) on an empty array. -/
def npMax : List Int → Option Int
  | [] => none
  | x :: xs => some (xs.foldl max x)

/-- `(labels == -1).sum()` (line 69): the elementwise comparison yields a
boolean array whose sum counts the `-1` entries. -/
def npCountNegOne (labels : List Int) : Nat :=
  (labels.map fun l => if l = -1 then 1 else 0).sum

/-- The two fields the script reads from the decoded stdin document
(lines 40-41); `ι` is the identifier type (JSON strings or numbers). -/
structure InputData (ι : Type) where
  ids : List ι
  embeddings : List (List ℚ)
deriving DecidableEq

/-- The success record serialized to stdout (lines 65-70). -/
structure ClusterResult (ι : Type) where
  labels : List Int
  ids : List ι
  n_clusters : Int
  n_noise : Nat
deriving DecidableEq

/-- A JSON document the script can print to stdout: the dependency-error
object of lines 33-35 or the result record of line 75. -/
inductive StdoutDoc (ι : Type) where
  | errorDoc (message : String)
  | resultDoc (result : ClusterResult ι)
deriving DecidableEq

/-- One observable print of the script, in program order. -/
inductive Event (ι : Type) where
  | stdout (doc : StdoutDoc ι)
  | stderr (line : String)
deriving DecidableEq

/-- `true` exactly on `Event.stdout` events. -/
def Event.isStdout {ι : Type} : Event ι → Bool
  | Event.stdout _ => true
  | Event.stderr _ => false

/-- `true` exactly on `Event.stderr` events. -/
def Event.isStderr {ι : Type} : Event ι → Bool
  | Event.stdout _ => false
  | Event.stderr _ => true

/-- How the process ends: `exited c` for an explicit `sys.exit` or the
implicit success fall-through (code 0); `faulted` for an uncaught Python
exception, where the interpreter prints a traceback (not an `Event` of the
script) and exits with a non-zero code the script does not control. -/
inductive ExitStatus where
  | exited (code : Nat)
  | faulted
deriving DecidableEq

/-- `true` on every termination whose exit code is non-zero. -/
def nonzeroExit : ExitStatus → Bool
  | ExitStatus.exited c => c != 0
  | ExitStatus.faulted => true

/-- The prints the script performed, in order, and how the process ended. -/
structure Trace (ι : Type) where
  events : List (Event ι)
  status : ExitStatus
deriving DecidableEq

/-- The run's environment: whether `import numpy` / `import hdbscan` raises
`ImportError` (with the exception's message, lines 29-32), the decoded
stdin document (`none` when `json.load(sys.stdin)` raises on unparseable
input, line 39), and the two external collaborators: the numeric library's
row norm and the clustering library's `fit_predict`. -/
structure Env (ι : Type) where
  importError : Option String
  stdin : Option (InputData ι)
  normF : List ℚ → ℚ
  fit : HParams → List (List ℚ) → List Int

/-- The stdout message of lines 33-35. -/
def depMessage (e : String) : String :=
  "Missing dependency: " ++ e ++ ". Install with: pip install hdbscan numpy"

/-- The five stderr progress lines of lines 48-52 (`n` is `len(ids)`). -/
def configLines (args : Args) (n : Nat) : List String :=
  ["Clustering " ++ toString n ++ " vectors with HDBSCAN...",
   "  min_cluster_size=" ++ toString args.min_cluster_size,
   "  min_samples=" ++ toString (pyOrInt args.min_samples args.min_cluster_size),
   "  metric=" ++ args.metric,
   "  core_dist_n_jobs=" ++ toString args.core_dist_n_jobs]

/-- The stderr summary line of lines 72-73. -/
def summaryLine {ι : Type} (r : ClusterResult ι) : String :=
  "Found " ++ toString r.n_clusters ++ " clusters, " ++
    toString r.n_noise ++ " noise points"

/-- Lines 65-70: the result dictionary.  Evaluating `labels.max()` raises
`ValueError` on an empty label array, so the record is `none` there (the
script then faults before printing anything further). -/
def buildResult {ι : Type} (ids : List ι) (labels : List Int) :
    Option (ClusterResult ι) :=
  match npMax labels with
  | none => none
  | some m =>
    some { labels := labels
           ids := ids
           n_clusters := if 0 ≤ m then m + 1 else 0
           n_noise := npCountNegOne labels }

/-- The script's `main()` as a trace, following the source line by line:
the import guard (lines 29-36), stdin decoding (lines 39-41), conditional
normalization (lines 44-46), five config lines to stderr (lines 48-52),
the clustering call (line 62), the result record (lines 65-70, faulting on
an empty label array), the summary line to stderr (lines 72-73), and the
result document to stdout (line 75). -/
def main {ι : Type} (args : Args) (env : Env ι) : Trace ι :=
  match env.importError with
  | some e =>
    { events := [Event.stdout (StdoutDoc.errorDoc (depMessage e))]
      status := ExitStatus.exited 1 }
  | none =>
    match env.stdin with
    | none => { events := [], status := ExitStatus.faulted }
    | some data =>
      let matrix := matrixForClustering args.metric env.normF data.embeddings
      let pre := (configLines args data.ids.length).map Event.stderr
      match buildResult data.ids (env.fit (hdbscanParams args) matrix) with
      | none => { events := pre, status := ExitStatus.faulted }
      | some r =>
        { events := pre ++ [Event.stderr (summaryLine r),
                            Event.stdout (StdoutDoc.resultDoc r)]
          status := ExitStatus.exited 0 }

/-- `List.foldl max x xs` is an element of `x :: xs` and bounds `x` and every
element of `xs` from above. -/
theorem foldl_max_spec (xs : List Int) (x : Int) :
    (xs.foldl max x = x ∨ xs.foldl max x ∈ xs) ∧
      x ≤ xs.foldl max x ∧ ∀ y ∈ xs, y ≤ xs.foldl max x := by
  induction xs generalizing x with
  | nil => simp
  | cons y ys ih =>
    obtain ⟨hmem, hle, hall⟩ := ih (max x y)
    simp only [List.foldl_cons]
    refine ⟨?_, ?_, ?_⟩
    · rcases hmem with h | h
      · rcases max_choice x y with hxy | hxy
        · exact Or.inl (by rw [h, hxy])
        · exact Or.inr (by rw [h, hxy]; exact List.mem_cons_self _ _)
      · exact Or.inr (List.mem_cons_of_mem _ h)
    · exact le_trans (le_max_left x y) hle
    · intro z hz
      rcases List.mem_cons.mp hz with rfl | hz
      · exact le_trans (le_max_right x z) hle
      · exact hall z hz

/-- When `npMax` returns a value, it is a member of the list and an upper
bound of the list. -/
theorem npMax_spec (l : List Int) (m : Int) (h : npMax l = some m) :
    m ∈ l ∧ ∀ x ∈ l, x ≤ m := by
  cases l with
  | nil => simp [npMax] at h
  | cons x xs =>
    obtain ⟨hmem, hle, hall⟩ := foldl_max_spec xs x
    have hm : xs.foldl max x = m := by simpa [npMax] using h
    subst hm
    refine ⟨?_, ?_⟩
    · rcases hmem with h | h
      · rw [h]; exact List.mem_cons_self _ _
      · exact List.mem_cons_of_mem _ h
    · intro z hz
      rcases List.mem_cons.mp hz with rfl | hz
      · exact hle
      · exact hall z hz

/-- The boolean-sum count of `-1` entries is the list count of `-1`. -/
theorem npCountNegOne_eq_count (l : List Int) :
    npCountNegOne l = l.count (-1) := by
  induction l with
  | nil => rfl
  | cons x xs ih =>
    by_cases hx : x = -1
    · simp [npCountNegOne, List.count_cons, hx, ← ih]
      omega
    · simp [npCountNegOne, List.count_cons, hx, ← ih]

/-- Normalization never changes the number of rows. -/
theorem matrixForClustering_length (metric : String) (normF : List ℚ → ℚ)
    (rows : List (List ℚ)) :
    (matrixForClustering metric normF rows).length = rows.length := by
  unfold matrixForClustering normalizeRows
  split <;> simp

/-- A result document on stdout pins down the whole run: imports succeeded,
stdin decoded, and the document is the record built from the labels that
`fit_predict` returned on the (possibly normalized) matrix; the run then
exited 0. -/
theorem resultDoc_run {ι : Type} (args : Args) (env : Env ι)
    (r : ClusterResult ι)
    (h : Event.stdout (StdoutDoc.resultDoc r) ∈ (main args env).events) :
    env.importError = none ∧ ∃ data, env.stdin = some data ∧
      buildResult data.ids
        (env.fit (hdbscanParams args)
          (matrixForClustering args.metric env.normF data.embeddings)) = some r ∧
      (main args env).status = ExitStatus.exited 0 := by
  cases himp : env.importError with
  | some e =>
    simp only [main, himp] at h
    simp at h
  | none =>
    cases hstdin : env.stdin with
    | none =>
      simp only [main, himp, hstdin] at h
      simp at h
    | some data =>
      simp only [main, himp, hstdin] at h
      cases hb : buildResult data.ids
          (env.fit (hdbscanParams args)
            (matrixForClustering args.metric env.normF data.embeddings)) with
      | none =>
        rw [hb] at h
        simp at h
      | some r' =>
        rw [hb] at h
        have hr : r = r' := by simpa using h
        refine ⟨rfl, data, rfl, ?_, ?_⟩
        · rw [hb, hr]
        · simp [main, himp, hstdin, hb]

/-- An exit status of 0 pins down the whole successful trace: imports
succeeded, stdin decoded, the record was built, and the events are the five
config lines, the summary line, then the single stdout document. -/
theorem success_trace {ι : Type} (args : Args) (env : Env ι)
    (h : (main args env).status = ExitStatus.exited 0) :
    ∃ data r, env.importError = none ∧ env.stdin = some data ∧
      buildResult data.ids
        (env.fit (hdbscanParams args)
          (matrixForClustering args.metric env.normF data.embeddings)) = some r ∧
      (main args env).events
        = (configLines args data.ids.length).map Event.stderr
          ++ [Event.stderr (summaryLine r),
              Event.stdout (StdoutDoc.resultDoc r)] := by
  cases himp : env.importError with
  | some e =>
    simp [main, himp] at h
  | none =>
    cases hstdin : env.stdin with
    | none =>
      simp [main, himp, hstdin] at h
    | some data =>
      simp only [main, himp, hstdin] at h
      cases hb : buildResult data.ids
          (env.fit (hdbscanParams args)
            (matrixForClustering args.metric env.normF data.embeddings)) with
      | none =>
        rw [hb] at h
        simp at h
      | some r' =>
        refine ⟨data, r', rfl, rfl, hb, ?_⟩
        simp [main, himp, hstdin, hb]

/-- Unpacking a successfully built result record into its four fields. -/
theorem buildResult_spec {ι : Type} (ids : List ι) (labels : List Int)
    (r : ClusterResult ι) (h : buildResult ids labels = some r) :
    r.labels = labels ∧ r.ids = ids ∧
      (∃ m, npMax labels = some m ∧
        r.n_clusters = if 0 ≤ m then m + 1 else 0) ∧
      r.n_noise = npCountNegOne labels := by
  unfold buildResult at h
  cases hm : npMax labels with
  | none => rw [hm] at h; simp at h
  | some m =>
    rw [hm] at h
    simp only [Option.some.injEq] at h
    subst h
    exact ⟨rfl, rfl, ⟨m, rfl, rfl⟩, rfl⟩

/-- C1: when the metric option is `"euclidean"` (the default), every
embedding row is divided entrywise by the maximum of its row norm and the
floor `1e-8` before being passed to the clustering routine; that divisor is
never zero, and a row whose norm is at or below `1e-8` is divided by the
floor value itself; for every other metric value the matrix reaches the
clustering routine unchanged. -/
theorem euclidean_normalization (metric : String) (normF : List ℚ → ℚ)
    (rows : List (List ℚ)) :
    (metric = "euclidean" →
      matrixForClustering metric normF rows
        = rows.map fun row => row.map fun x =>
            x / max (normF row) (1 / 100000000))
  ∧ (∀ row : List ℚ, np_clip (normF row) normFloor none ≠ 0)
  ∧ (∀ row : List ℚ, normF row ≤ 1 / 100000000 →
      np_clip (normF row) normFloor none = 1 / 100000000)
  ∧ (metric ≠ "euclidean" → matrixForClustering metric normF rows = rows) := by
  refine ⟨?_, ?_, ?_, ?_⟩
  · intro h
    simp [matrixForClustering, h, normalizeRows, np_clip, normFloor]
  · intro row
    have hpos : (0 : ℚ) < max (normF row) (1 / 100000000) :=
      lt_of_lt_of_le (by norm_num) (le_max_right _ _)
    simpa [np_clip, normFloor] using ne_of_gt hpos
  · intro row hle
    exact max_eq_right hle
  · intro h
    simp [matrixForClustering, h]

/-- C2: in every output record the script prints, `n_clusters` is
`max(labels)+1` whenever some label is ≥ 0 (the maximum being the member of
the label list bounding every label) and 0 otherwise, and `n_noise` is the
number of entries equal to -1. -/
theorem result_counts {ι : Type} (args : Args) (env : Env ι)
    (r : ClusterResult ι)
    (h : Event.stdout (StdoutDoc.resultDoc r) ∈ (main args env).events) :
    ((∃ l ∈ r.labels, 0 ≤ l) →
      ∃ m, m ∈ r.labels ∧ (∀ l ∈ r.labels, l ≤ m) ∧ r.n_clusters = m + 1)
  ∧ ((¬ ∃ l ∈ r.labels, 0 ≤ l) → r.n_clusters = 0)
  ∧ r.n_noise = r.labels.count (-1) := by
  obtain ⟨-, data, -, hb, -⟩ := resultDoc_run args env r h
  obtain ⟨hlab, -, ⟨m, hm, hnc⟩, hnn⟩ := buildResult_spec _ _ _ hb
  rw [← hlab] at hm hnn
  obtain ⟨hmem, hall⟩ := npMax_spec _ _ hm
  refine ⟨?_, ?_, ?_⟩
  · rintro ⟨l, hl, hl0⟩
    exact ⟨m, hmem, hall, by rw [hnc, if_pos (le_trans hl0 (hall l hl))]⟩
  · intro hno
    rw [hnc, if_neg]
    intro h0
    exact hno ⟨m, hmem, h0⟩
  · rw [hnn, npCountNegOne_eq_count]

/-- C3: exactly the import failure produces a structured JSON error on
stdout -- the `Missing dependency` object together with exit code 1; when
the imports succeed no error document is ever printed, and a run that
prints the result document exits with code 0. -/
theorem import_error_contract {ι : Type} (args : Args) (env : Env ι) :
    (∀ e, env.importError = some e →
      (main args env).events
          = [Event.stdout (StdoutDoc.errorDoc (depMessage e))]
        ∧ (main args env).status = ExitStatus.exited 1)
  ∧ (env.importError = none →
      ∀ s, Event.stdout (StdoutDoc.errorDoc s) ∉ (main args env).events)
  ∧ (∀ r : ClusterResult ι,
      Event.stdout (StdoutDoc.resultDoc r) ∈ (main args env).events →
      (main args env).status = ExitStatus.exited 0) := by
  refine ⟨?_, ?_, ?_⟩
  · intro e he
    simp [main, he]
  · intro he s hmem
    cases hstdin : env.stdin with
    | none => simp [main, he, hstdin] at hmem
    | some data =>
      simp only [main, he, hstdin] at hmem
      cases hb : buildResult data.ids
          (env.fit (hdbscanParams args)
            (matrixForClustering args.metric env.normF data.embeddings)) with
      | none =>
        rw [hb] at hmem
        simp at hmem
      | some r' =>
        rw [hb] at hmem
        simp at hmem
  · intro r hr
    obtain ⟨-, -, -, -, hs⟩ := resultDoc_run args env r hr
    exact hs

/-- C4: for well-formed input (`ids` and `embeddings` of equal length, all
rows of one dimensionality `d`), when the clustering routine returns one
label per input row, the output record's labels are as long as its ids. -/
theorem labels_length_matches_ids {ι : Type} (args : Args) (env : Env ι)
    (data : InputData ι) (r : ClusterResult ι) (d : Nat)
    (hstdin : env.stdin = some data)
    (hlen : data.ids.length = data.embeddings.length)
    (_hdim : ∀ row ∈ data.embeddings, row.length = d)
    (hfit : ∀ p m, (env.fit p m).length = m.length)
    (h : Event.stdout (StdoutDoc.resultDoc r) ∈ (main args env).events) :
    r.labels.length = r.ids.length := by
  obtain ⟨-, data', hstdin', hb, -⟩ := resultDoc_run args env r h
  rw [hstdin] at hstdin'
  obtain rfl : data = data' := by injection hstdin'
  obtain ⟨hlab, hids, -, -⟩ := buildResult_spec _ _ _ hb
  rw [hlab, hids, hfit, matrixForClustering_length, ← hlen]

/-- C5 (amended): provided the two imports succeed, unparseable stdin makes
the run fault -- non-zero exit, and nothing at all printed to stdout. -/
theorem malformed_stdin_no_output {ι : Type} (args : Args) (env : Env ι)
    (himp : env.importError = none) (hstdin : env.stdin = none) :
    (main args env).status = ExitStatus.faulted
  ∧ nonzeroExit (main args env).status = true
  ∧ ∀ d : StdoutDoc ι, Event.stdout d ∉ (main args env).events := by
  simp [main, himp, hstdin, nonzeroExit]

/-- C6: the ids of the input document are echoed unchanged as the output
record's `ids` field. -/
theorem ids_echoed {ι : Type} (args : Args) (env : Env ι)
    (data : InputData ι) (r : ClusterResult ι)
    (hstdin : env.stdin = some data)
    (h : Event.stdout (StdoutDoc.resultDoc r) ∈ (main args env).events) :
    r.ids = data.ids := by
  obtain ⟨-, data', hstdin', hb, -⟩ := resultDoc_run args env r h
  rw [hstdin] at hstdin'
  obtain rfl : data = data' := by injection hstdin'
  exact (buildResult_spec _ _ _ hb).2.1

/-- C7: a successful run prints exactly one stdout document, as its very
last event, so every stderr diagnostic precedes it. -/
theorem single_stdout_last {ι : Type} (args : Args) (env : Env ι)
    (h : (main args env).status = ExitStatus.exited 0) :
    (main args env).events.countP (fun e => e.isStdout) = 1
  ∧ ∃ pre d, (main args env).events = pre ++ [Event.stdout d]
      ∧ ∀ e ∈ pre, e.isStderr = true := by
  obtain ⟨data, r, -, -, -, hev⟩ := success_trace args env h
  rw [hev]
  constructor
  · simp [configLines, Event.isStdout, List.countP_append, List.countP_cons]
  · refine ⟨(configLines args data.ids.length).map Event.stderr
        ++ [Event.stderr (summaryLine r)], StdoutDoc.resultDoc r, by simp, ?_⟩
    intro e he
    simp only [List.mem_append, List.mem_map, List.mem_singleton] at he
    rcases he with ⟨a, -, rfl⟩ | rfl <;> rfl

/-- C8 (amended): a successful run writes six progress lines to stderr --
five before the clustering call echoing the configuration, and one after
it with the result summary. -/
theorem stderr_diagnostics {ι : Type} (args : Args) (env : Env ι)
    (data : InputData ι)
    (hstdin : env.stdin = some data)
    (h : (main args env).status = ExitStatus.exited 0) :
    ∃ r, (main args env).events
        = (configLines args data.ids.length).map Event.stderr
          ++ [Event.stderr (summaryLine r),
              Event.stdout (StdoutDoc.resultDoc r)]
      ∧ (configLines args data.ids.length).length = 5
      ∧ (main args env).events.countP (fun e => e.isStderr) = 6 := by
  obtain ⟨data', r, -, hstdin', hb, hev⟩ := success_trace args env h
  rw [hstdin] at hstdin'
  obtain rfl : data = data' := by injection hstdin'
  refine ⟨r, hev, rfl, ?_⟩
  rw [hev]
  simp [configLines, Event.isStderr, List.countP_append, List.countP_cons]

/-- C9: the effective `min_samples` handed to the clusterer falls back to
`min_cluster_size` both when `--min-samples` is omitted and when it is
supplied as 0 (Python `or` tests falsiness, not absence), while a supplied
non-zero value passes through unchanged. -/
theorem min_samples_fallback (args : Args) :
    (args.min_samples = none →
      (hdbscanParams args).min_samples = args.min_cluster_size)
  ∧ (args.min_samples = some 0 →
      (hdbscanParams args).min_samples = args.min_cluster_size)
  ∧ (∀ v : Int, v ≠ 0 → args.min_samples = some v →
      (hdbscanParams args).min_samples = v) := by
  refine ⟨?_, ?_, ?_⟩
  · intro h
    simp [hdbscanParams, pyOrInt, h]
  · intro h
    simp [hdbscanParams, pyOrInt, h]
  · intro v hv h
    simp [hdbscanParams, pyOrInt, h, hv]

/-- C10: on the well-formed empty input, with the clustering routine
returning the empty label array on the empty matrix, the run faults
(`labels.max()` raises on an empty array) instead of printing an output
record: nothing reaches stdout. -/
theorem empty_input_faults {ι : Type} (args : Args) (env : Env ι)
    (himp : env.importError = none)
    (hstdin : env.stdin = some { ids := [], embeddings := [] })
    (hfit : ∀ p : HParams, env.fit p [] = []) :
    (main args env).status = ExitStatus.faulted
  ∧ ∀ d : StdoutDoc ι, Event.stdout d ∉ (main args env).events := by
  have hmat : matrixForClustering args.metric env.normF [] = [] := by
    simp [matrixForClustering, normalizeRows]
  simp [main, himp, hstdin, hmat, hfit, buildResult, npMax, configLines]

/-- A concrete clustering routine for witnesses: label 0 for every row. -/
def wFit : HParams → List (List ℚ) → List Int :=
  fun _ m => m.map fun _ => 0

/-- A concrete row norm for witnesses. -/
def wNorm : List ℚ → ℚ :=
  fun row => row.sum

/-- A concrete two-row input with integer ids. -/
def wData : InputData Int where
  ids := [7, 8]
  embeddings := [[1, 0], [0, 1]]

/-- The environment of a successful concrete run. -/
def wEnv : Env Int where
  importError := none
  stdin := some wData
  normF := wNorm
  fit := wFit

/-- The record that concrete run prints. -/
def wResult : ClusterResult Int where
  labels := [0, 0]
  ids := [7, 8]
  n_clusters := 1
  n_noise := 0

/-- The concrete run evaluates to a success trace printing `wResult`. -/
theorem wEnv_run :
    main defaultArgs wEnv
      = { events := (configLines defaultArgs 2).map Event.stderr
            ++ [Event.stderr (summaryLine wResult),
                Event.stdout (StdoutDoc.resultDoc wResult)]
          status := ExitStatus.exited 0 } := by
  simp [main, wEnv, wData, defaultArgs, matrixForClustering, normalizeRows,
        buildResult, npMax, npCountNegOne, wFit, wResult]

/-- An environment with imports fine but stdin unparseable. -/
def wEnvBadStdin : Env Int where
  importError := none
  stdin := none
  normF := wNorm
  fit := wFit

/-- An environment hitting both failure conditions at once: the imports
fail and the stdin text is unparseable. -/
def wEnvBoth : Env Int where
  importError := some "No module named numpy"
  stdin := none
  normF := wNorm
  fit := wFit

/-- The environment of a run on the well-formed empty input. -/
def wEnvEmpty : Env Int where
  importError := none
  stdin := some { ids := [], embeddings := [] }
  normF := wNorm
  fit := wFit

/-- C2's theorem at the concrete run: the record is printed and its counts
check out. -/
theorem result_counts_witness :
    Event.stdout (StdoutDoc.resultDoc wResult) ∈ (main defaultArgs wEnv).events
  ∧ (((∃ l ∈ wResult.labels, 0 ≤ l) →
        ∃ m, m ∈ wResult.labels ∧ (∀ l ∈ wResult.labels, l ≤ m) ∧
          wResult.n_clusters = m + 1)
    ∧ ((¬ ∃ l ∈ wResult.labels, 0 ≤ l) → wResult.n_clusters = 0)
    ∧ wResult.n_noise = wResult.labels.count (-1)) := by
  have hm : Event.stdout (StdoutDoc.resultDoc wResult)
      ∈ (main defaultArgs wEnv).events := by
    rw [wEnv_run]
    simp
  exact ⟨hm, result_counts defaultArgs wEnv wResult hm⟩

/-- C4's theorem at the concrete run: its hypotheses hold there and the
label list is as long as the id list. -/
theorem labels_length_matches_ids_witness :
    wEnv.stdin = some wData
  ∧ wData.ids.length = wData.embeddings.length
  ∧ (∀ row ∈ wData.embeddings, row.length = 2)
  ∧ (∀ p m, (wEnv.fit p m).length = m.length)
  ∧ Event.stdout (StdoutDoc.resultDoc wResult) ∈ (main defaultArgs wEnv).events
  ∧ wResult.labels.length = wResult.ids.length := by
  have h3 : ∀ row ∈ wData.embeddings, row.length = 2 := by
    intro row hr
    rcases (by simpa [wData] using hr : row = [1, 0] ∨ row = [0, 1]) with
      rfl | rfl <;> rfl
  have h4 : ∀ p m, (wEnv.fit p m).length = m.length := by
    intro p m
    simp [wEnv, wFit]
  have hm : Event.stdout (StdoutDoc.resultDoc wResult)
      ∈ (main defaultArgs wEnv).events := by
    rw [wEnv_run]
    simp
  exact ⟨rfl, rfl, h3, h4, hm,
    labels_length_matches_ids defaultArgs wEnv wData wResult 2 rfl rfl h3 h4 hm⟩

/-- C5's amended theorem at a concrete run with unparseable stdin. -/
theorem malformed_stdin_no_output_witness :
    wEnvBadStdin.importError = none
  ∧ wEnvBadStdin.stdin = none
  ∧ ((main defaultArgs wEnvBadStdin).status = ExitStatus.faulted
    ∧ nonzeroExit (main defaultArgs wEnvBadStdin).status = true
    ∧ ∀ d : StdoutDoc Int,
        Event.stdout d ∉ (main defaultArgs wEnvBadStdin).events) :=
  ⟨rfl, rfl, malformed_stdin_no_output defaultArgs wEnvBadStdin rfl rfl⟩

/-- C5 as frozen is false: in a run whose stdin text is unparseable but
whose imports fail first, the process terminates non-zero yet still writes
a JSON document (the dependency error object) to stdout. -/
theorem malformed_stdin_counterexample :
    wEnvBoth.stdin = none
  ∧ nonzeroExit (main defaultArgs wEnvBoth).status = true
  ∧ Event.stdout (StdoutDoc.errorDoc (depMessage "No module named numpy"))
      ∈ (main defaultArgs wEnvBoth).events := by
  refine ⟨rfl, rfl, ?_⟩
  simp [main, wEnvBoth]

/-- C6's theorem at the concrete run: the printed ids are the input ids. -/
theorem ids_echoed_witness :
    wEnv.stdin = some wData
  ∧ Event.stdout (StdoutDoc.resultDoc wResult) ∈ (main defaultArgs wEnv).events
  ∧ wResult.ids = wData.ids := by
  have hm : Event.stdout (StdoutDoc.resultDoc wResult)
      ∈ (main defaultArgs wEnv).events := by
    rw [wEnv_run]
    simp
  exact ⟨rfl, hm, ids_echoed defaultArgs wEnv wData wResult rfl hm⟩

/-- C7's theorem at the concrete run. -/
theorem single_stdout_last_witness :
    (main defaultArgs wEnv).status = ExitStatus.exited 0
  ∧ ((main defaultArgs wEnv).events.countP (fun e => e.isStdout) = 1
    ∧ ∃ pre d, (main defaultArgs wEnv).events = pre ++ [Event.stdout d]
        ∧ ∀ e ∈ pre, e.isStderr = true) := by
  have h : (main defaultArgs wEnv).status = ExitStatus.exited 0 := by
    rw [wEnv_run]
  exact ⟨h, single_stdout_last defaultArgs wEnv h⟩

/-- C8's amended theorem at the concrete run. -/
theorem stderr_diagnostics_witness :
    wEnv.stdin = some wData
  ∧ (main defaultArgs wEnv).status = ExitStatus.exited 0
  ∧ ∃ r, (main defaultArgs wEnv).events
        = (configLines defaultArgs wData.ids.length).map Event.stderr
          ++ [Event.stderr (summaryLine r),
              Event.stdout (StdoutDoc.resultDoc r)]
      ∧ (configLines defaultArgs wData.ids.length).length = 5
      ∧ (main defaultArgs wEnv).events.countP (fun e => e.isStderr) = 6 := by
  have h : (main defaultArgs wEnv).status = ExitStatus.exited 0 := by
    rw [wEnv_run]
  exact ⟨rfl, h, stderr_diagnostics defaultArgs wEnv wData rfl h⟩

/-- C8 as frozen is false: this successful run writes six lines to stderr,
not three or four. -/
theorem stderr_count_counterexample :
    (main defaultArgs wEnv).status = ExitStatus.exited 0
  ∧ (main defaultArgs wEnv).events.countP (fun e => e.isStderr) = 6
  ∧ ¬((main defaultArgs wEnv).events.countP (fun e => e.isStderr) = 3
      ∨ (main defaultArgs wEnv).events.countP (fun e => e.isStderr) = 4) := by
  have h6 : (main defaultArgs wEnv).events.countP (fun e => e.isStderr) = 6 := by
    rw [wEnv_run]
    simp [configLines, Event.isStderr, List.countP_append, List.countP_cons]
  refine ⟨by rw [wEnv_run], h6, ?_⟩
  rw [h6]
  omega

/-- C10's theorem at a concrete run on the empty input. -/
theorem empty_input_faults_witness :
    wEnvEmpty.importError = none
  ∧ wEnvEmpty.stdin = some { ids := [], embeddings := [] }
  ∧ (∀ p : HParams, wEnvEmpty.fit p [] = [])
  ∧ ((main defaultArgs wEnvEmpty).status = ExitStatus.faulted
    ∧ ∀ d : StdoutDoc Int,
        Event.stdout d ∉ (main defaultArgs wEnvEmpty).events) := by
  have h3 : ∀ p : HParams, wEnvEmpty.fit p [] = [] := fun _ => rfl
  exact ⟨rfl, rfl, h3, empty_input_faults defaultArgs wEnvEmpty rfl rfl h3⟩

end HdbscanPy
